import Mathlib

/-!
Verification development for the DCTAP CSV reader (`dctap/csvreader.py`).

The Python module is shallowly embedded below.  Python `None`-or-string cell
values become the inductive type `Val`; Python dicts become insertion-ordered
association lists (`alook` / `aset` reproduce `d[k]` lookup and `d[k] = v`
assignment semantics, including the fact that assigning to an existing key
keeps its position while a fresh key is appended at the end); exceptions
(`DctapError`, `KeyError`, `UnboundLocalError`, `IndexError`) become an
`Except PyErr` result.

The classes `TAPShape` / `TAPStatementConstraint` and their hooks
(`set_settings`, `normalize`, `get_warnings`) live in `dctap/tapclasses.py`,
which is not part of the sources at hand; they are modelled from the spec
(see the doc comments on the individual definitions).  The hook behaviour is
kept abstract as a `Hooks` parameter, since the spec treats normalization and
warning generation as external collaborators.
-/

set_option linter.unusedVariables false

/-- A Python cell value as it occurs in the reader: either `None` or a
string.  `DictReader` fills missing trailing cells with `None`, and
`config_dict.get` returns `None` for absent keys, so both shapes occur. -/
inductive Val where
  | null : Val
  | str (s : String) : Val
deriving DecidableEq, Repr

/-- Python truthiness of a `Val`: `None` and `""` are falsy. -/
def Val.truthy : Val → Bool
  | Val.null => false
  | Val.str s => s != ""

/-- Truthiness of an optional lookup (`row.get(k)`): a missing key reads as
`None`, which is falsy. -/
def truthyO : Option Val → Bool
  | Option.none => false
  | Option.some v => v.truthy

/-- First-match lookup in an association list: Python `d[k]` / `d.get(k)`. -/
def alook {K V : Type} [DecidableEq K] : List (K × V) → K → Option V
  | [], _ => Option.none
  | (k', v) :: rest, k => if k' = k then Option.some v else alook rest k

/-- Python dict assignment `d[k] = v`: replace the value at an existing key
in place (keeping its position), otherwise append the fresh key at the end.
This reproduces the insertion-order semantics of Python 3.7+ dicts that the
carry-forward rule (`list(shapes)[-1]`) depends on. -/
def aset {K V : Type} [DecidableEq K] : List (K × V) → K → V → List (K × V)
  | [], k, v => [(k, v)]
  | (k', v') :: rest, k, v =>
    if k' = k then (k', v) :: rest else (k', v') :: aset rest k v

/-- In-place update of the value stored at an existing key (`d[k].mutate()`).
A no-op when the key is absent (every use site has the key present). -/
def aupd {K V : Type} [DecidableEq K] (m : List (K × V)) (k : K) (f : V → V) :
    List (K × V) :=
  match alook m k with
  | Option.some v => aset m k (f v)
  | Option.none => m

/-- A CSV row as produced by `csv.DictReader`: an insertion-ordered mapping
from normalized column name to cell value. -/
abbrev Row := List (String × Val)

/-- The Python exceptions observable from the module: `DctapError` (raised in
`_get_rows`), `KeyError` (absent dict key on direct indexing),
`UnboundLocalError` (return of a never-assigned local), `IndexError`
(indexing line `[0]` of an empty file). -/
inductive PyErr where
  | dctapError (msg : String) : PyErr
  | keyError (key : String) : PyErr
  | unboundLocalError (lname : String) : PyErr
  | indexError : PyErr
deriving DecidableEq, Repr

/-- Modelled from the spec: `TAPStatementConstraint` (in the missing
`dctap/tapclasses.py`) is a dataclass holding the ten statement-constraint
elements listed in `tests/test_CONFIG_get_shems_stems.py` (each a string
defaulting to `""`) plus the internal bookkeeping warnings dict excluded
there (named `sc_warnings` in the `csvreader.py` naming scheme).  The
bookkeeping field is modelled as `Option Val`: `Option.none` is the pristine
empty dict, `Option.some v` records that the field loop of `_get_tapshapes`
overwrote it with a row value. -/
@[ext]
structure TAPStatementConstraint where
  propertyID : Val := Val.str ""
  propertyLabel : Val := Val.str ""
  mandatory : Val := Val.str ""
  repeatable : Val := Val.str ""
  valueNodeType : Val := Val.str ""
  valueDataType : Val := Val.str ""
  valueConstraint : Val := Val.str ""
  valueConstraintType : Val := Val.str ""
  valueShape : Val := Val.str ""
  note : Val := Val.str ""
  sc_warnings : Option Val := Option.none
deriving DecidableEq, Repr

/-- The keys of `asdict(TAPStatementConstraint())`, in dataclass field
order. -/
def sc_keys : List String :=
  ["propertyID", "propertyLabel", "mandatory", "repeatable", "valueNodeType",
   "valueDataType", "valueConstraint", "valueConstraintType", "valueShape",
   "note", "sc_warnings"]

/-- Python `setattr(sc, k, v)` for the declared fields of the dataclass. -/
def TAPStatementConstraint.setattr (sc : TAPStatementConstraint) (k : String)
    (v : Val) : TAPStatementConstraint :=
  match k with
  | "propertyID" => { sc with propertyID := v }
  | "propertyLabel" => { sc with propertyLabel := v }
  | "mandatory" => { sc with mandatory := v }
  | "repeatable" => { sc with repeatable := v }
  | "valueNodeType" => { sc with valueNodeType := v }
  | "valueDataType" => { sc with valueDataType := v }
  | "valueConstraint" => { sc with valueConstraint := v }
  | "valueConstraintType" => { sc with valueConstraintType := v }
  | "valueShape" => { sc with valueShape := v }
  | "note" => { sc with note := v }
  | "sc_warnings" => { sc with sc_warnings := Option.some v }
  | _ => sc

/-- The body of the field loop at `_get_tapshapes` lines 111-114: copy the
row value for one key if present (`setattr`), skip the key otherwise
(`except KeyError: pass`). -/
def sc_upd (row : Row) (s : TAPStatementConstraint) (k : String) :
    TAPStatementConstraint :=
  match alook row k with
  | Option.some v => s.setattr k v
  | Option.none => s

/-- `_get_tapshapes` lines 108-114: instantiate a statement constraint and
copy into it every declared field (the full `asdict(sc)` key list, with no
bookkeeping exclusion) that is present in the row; absent keys raise
`KeyError` and are skipped. -/
def populate_sc (sc : TAPStatementConstraint) (row : Row) :
    TAPStatementConstraint :=
  sc_keys.foldl (sc_upd row) sc

/-- Modelled from the spec: `TAPShape` (in the missing `dctap/tapclasses.py`)
is a dataclass with the two shape elements `shapeID` / `shapeLabel`
(strings defaulting to `""`, per `tests/test_CONFIG_get_shems_stems.py`),
the ordered statement-constraint list `sc_list`, and the bookkeeping
warnings dict `sh_warnings` (both named at lines 62-64 of `csvreader.py`).
As for the statement constraint, the bookkeeping dict is `Option Val`. -/
structure TAPShape where
  shapeID : Val := Val.str ""
  shapeLabel : Val := Val.str ""
  sc_list : List TAPStatementConstraint := []
  sh_warnings : Option Val := Option.none
deriving DecidableEq, Repr

/-- The keys of `asdict(TAPShape())`, in dataclass field order. -/
def tapshape_keys : List String :=
  ["shapeID", "shapeLabel", "sc_list", "sh_warnings"]

/-- Python `setattr(shape, k, v)`.  `set_shape_fields` only ever calls this
with `"shapeID"` or `"shapeLabel"` (the bookkeeping keys are removed from
the iterated list first), so the remaining cases are unreachable there. -/
def TAPShape.setattr (shape : TAPShape) (k : String) (v : Val) : TAPShape :=
  match k with
  | "shapeID" => { shape with shapeID := v }
  | "shapeLabel" => { shape with shapeLabel := v }
  | _ => shape

/-- `_get_tapshapes` lines 60-70: copy row values into the shape for every
key of `asdict(TAPShape())` minus `"sc_list"` and `"sh_warnings"`; keys not
found in the row raise `KeyError` and are skipped. -/
def set_shape_fields (shape : TAPShape) (row : Row) : TAPShape :=
  ((tapshape_keys.erase "sc_list").erase "sh_warnings").foldl
    (fun s k =>
      match alook row k with
      | Option.some v => s.setattr k v
      | Option.none => s)
    shape

/-- Modelled from the spec: the external normalization collaborators of
`tapclasses.py`.  `shapeNorm` is the combined effect of
`shape.set_settings(config_dict); shape.normalize()` on the shape object;
`shapeWarn` is `shape.get_warnings()`, an element-name-to-message mapping in
emission order; likewise `scNorm` / `scWarn` for the statement constraint. -/
structure Hooks where
  shapeNorm : TAPShape → TAPShape
  shapeWarn : TAPShape → List (String × String)
  scNorm : TAPStatementConstraint → TAPStatementConstraint
  scWarn : TAPStatementConstraint → List (String × String)

/-- Hooks that normalize nothing and emit no warnings. -/
def idHooks : Hooks :=
  { shapeNorm := fun s => s
    shapeWarn := fun _ => []
    scNorm := fun c => c
    scWarn := fun _ => [] }

/-- The warnings accumulator: `defaultdict(dict)` mapping shape key to a
mapping from element name to the ordered list of emitted messages. -/
abbrev WMap := List (Val × List (String × List String))

/-- One iteration of the warning-merge loops (`_get_tapshapes` lines 101-106
and 124-129): `warnings[sh_id][elem].append(warn)`, creating the
intermediate containers when absent (`defaultdict` access for the shape key,
`except KeyError` for the element key). -/
def mergeOne (w : WMap) (k : Val) (elem : String) (warn : String) : WMap :=
  let inner := (alook w k).getD []
  let cur := (alook inner elem).getD []
  aset w k (aset inner elem (cur ++ [warn]))

/-- A whole warning-merge loop over the `(elem, warn)` items emitted by one
hook invocation, in emission order. -/
def mergeMany (w : WMap) (k : Val) (items : List (String × String)) : WMap :=
  items.foldl (fun acc it => mergeOne acc k it.1 it.2) w

/-- The ordered message list stored at `warnings[k][elem]` (empty when either
level is absent). -/
def warnsAt (w : WMap) (k : Val) (elem : String) : List String :=
  (alook ((alook w k).getD []) elem).getD []

/-- A plain Python object, for the assembled return values of
`_get_tapshapes` (nested dicts, lists and strings produced by `asdict`). -/
inductive PyObj where
  | null : PyObj
  | str (s : String) : PyObj
  | list (xs : List PyObj) : PyObj
  | dict (xs : List (Val × PyObj)) : PyObj

/-- A `Val` as a plain object. -/
def valToObj : Val → PyObj
  | Val.null => PyObj.null
  | Val.str s => PyObj.str s

/-- A bookkeeping warnings field as a plain object: the pristine value is an
empty dict, an overwritten value is whatever row value was written. -/
def bookObj : Option Val → PyObj
  | Option.none => PyObj.dict []
  | Option.some v => valToObj v

/-- `asdict` of a statement constraint, keys in dataclass field order. -/
def scAsDict (sc : TAPStatementConstraint) : PyObj :=
  PyObj.dict
    [(Val.str "propertyID", valToObj sc.propertyID),
     (Val.str "propertyLabel", valToObj sc.propertyLabel),
     (Val.str "mandatory", valToObj sc.mandatory),
     (Val.str "repeatable", valToObj sc.repeatable),
     (Val.str "valueNodeType", valToObj sc.valueNodeType),
     (Val.str "valueDataType", valToObj sc.valueDataType),
     (Val.str "valueConstraint", valToObj sc.valueConstraint),
     (Val.str "valueConstraintType", valToObj sc.valueConstraintType),
     (Val.str "valueShape", valToObj sc.valueShape),
     (Val.str "note", valToObj sc.note),
     (Val.str "sc_warnings", bookObj sc.sc_warnings)]

/-- `_get_tapshapes` lines 134-139: `asdict` of a shape, with `"sc_list"`
popped and its value re-added under the key `"statement_constraints"`; the
`pop` removes the key in place and the assignment appends the new key at the
end, so the key order is shapeID, shapeLabel, sh_warnings,
statement_constraints. -/
def shapeAsDict (shape : TAPShape) : PyObj :=
  PyObj.dict
    [(Val.str "shapeID", valToObj shape.shapeID),
     (Val.str "shapeLabel", valToObj shape.shapeLabel),
     (Val.str "sh_warnings", bookObj shape.sh_warnings),
     (Val.str "statement_constraints", PyObj.list (shape.sc_list.map scAsDict))]

/-- `_get_tapshapes` lines 131-139: `tapshapes_dict`, a dict whose single key
`"shapes"` holds the list of shape dicts in creation order. -/
def assembleShapes (shapes : List (Val × TAPShape)) : PyObj :=
  PyObj.dict
    [(Val.str "shapes", PyObj.list (shapes.map (fun p => shapeAsDict p.2)))]

/-- `_get_tapshapes` line 141: `dict(warnings)` as a plain nested object. -/
def assembleWarns (w : WMap) : PyObj :=
  PyObj.dict
    (w.map (fun p =>
      (p.1,
       PyObj.dict
         (p.2.map (fun q =>
           (Val.str q.1, PyObj.list (q.2.map PyObj.str)))))))

/-- The loop state of `_get_tapshapes`: the insertion-ordered `shapes` dict,
the `first_valid_row_encountered` flag, the `warnings` accumulator, the key
of the shape object currently bound to the local variable `shape` (the most
recently created one), the pair that the trailing `return` statement will
read (`Option.none` while `tapshapes_dict` / `warnings_dict` are still
unassigned), the processed rows including the shapeID write-back mutation,
and `scTrace`, a proof-only instrumentation list recording, per valid row in
source order, the resolved shape key and the appended statement constraint
(it influences nothing else). -/
structure GState where
  shapes : List (Val × TAPShape)
  first : Bool
  warns : WMap
  lastCreated : Val
  ret : Option (PyObj × PyObj)
  rowsOut : List Row
  scTrace : List (Val × TAPStatementConstraint)

/-- The state before the loop of `_get_tapshapes` starts. -/
def initState : GState :=
  { shapes := []
    first := true
    warns := []
    lastCreated := Val.null
    ret := Option.none
    rowsOut := []
    scTrace := [] }

/-- `_get_tapshapes` lines 85-90: for a row on the not-first path, use a
truthy `shapeID` as the key, otherwise the last key of the `shapes` dict
(`list(shapes)[-1]`; the dict is never empty here, so the `getLastD`
default is unreachable). -/
def resolve_next (shapes : List (Val × TAPShape)) (row : Row) : Val :=
  if truthyO (alook row "shapeID") then (alook row "shapeID").getD Val.null
  else (shapes.map Prod.fst).getLastD Val.null

/-- `_get_tapshapes` lines 76-83, the first-valid-row block, returning the
(possibly mutated) row, the shapes dict, the key bound to the local variable
`shape`, and the flag value: on the very first valid row a truthy `shapeID`
is used as key, otherwise the default key is written back into the row; the
first shape is created and populated, and the flag is lowered; on every
later row nothing happens here. -/
def first_block (dshape : Val) (s : GState) (row : Row) :
    Row × List (Val × TAPShape) × Val × Bool :=
  if s.first then
    let pr : Val × Row :=
      if truthyO (alook row "shapeID") then
        ((alook row "shapeID").getD Val.null, row)
      else
        (dshape, aset row "shapeID" dshape)
    (pr.2, aset s.shapes pr.1 (set_shape_fields {} pr.2), pr.1, false)
  else
    (row, s.shapes, s.lastCreated, s.first)

/-- `_get_tapshapes` lines 92-95: when the resolved key is not yet a shape,
create and populate one and initialize its warnings bucket, rebinding the
local variable `shape`; otherwise change nothing.  Returns the shapes dict,
the warnings accumulator and the key bound to `shape`. -/
def create_block (warns : WMap) (shapes1 : List (Val × TAPShape))
    (last1 sh_id : Val) (row1 : Row) : List (Val × TAPShape) × WMap × Val :=
  if (alook shapes1 sh_id).isNone then
    (aset shapes1 sh_id (set_shape_fields {} row1), aset warns sh_id [], sh_id)
  else
    (shapes1, warns, last1)

/-- The valid-row path of one loop iteration (lines 76-141): the first-row
block; the key resolution of lines 85-90 (the flag is false from here on, so
it runs for every valid row); the creation block; lines 97-106, normalizing
the most recently created shape object (the local variable `shape`) and
merging its warnings under the current row's key; lines 108-129, building
the statement constraint, appending it (line 116) and normalizing it in
place — so the stored entry is the normalized constraint — then merging its
warnings; and lines 131-141, re-assembling the returned pair. -/
def valid_step (hooks : Hooks) (dshape : Val) (s : GState) (row : Row) :
    GState :=
  let fb := first_block dshape s row
  let row1 := fb.1
  let shapes1 := fb.2.1
  let last1 := fb.2.2.1
  let sh_id := resolve_next shapes1 row1
  let cr := create_block s.warns shapes1 last1 sh_id row1
  let shapes2 := cr.1
  let warns2 := cr.2.1
  let last2 := cr.2.2
  let cur' := hooks.shapeNorm ((alook shapes2 last2).getD {})
  let shapes3 := aset shapes2 last2 cur'
  let warns3 := mergeMany warns2 sh_id (hooks.shapeWarn cur')
  let sc1 := hooks.scNorm (populate_sc {} row1)
  let shapes4 :=
    aupd shapes3 sh_id (fun sh => { sh with sc_list := sh.sc_list ++ [sc1] })
  let warns4 := mergeMany warns3 sh_id (hooks.scWarn sc1)
  { shapes := shapes4
    first := fb.2.2.2
    warns := warns4
    lastCreated := last2
    ret := Option.some (assembleShapes shapes4, assembleWarns warns4)
    rowsOut := s.rowsOut ++ [row1]
    scTrace := s.scTrace ++ [(sh_id, sc1)] }

/-- One iteration of the row loop of `_get_tapshapes` (lines 72-141).  A row
without a `"propertyID"` key raises `KeyError`; a row whose propertyID value
is falsy is appended to the processed rows unchanged and leaves the state
untouched (lines 72-74); a valid row goes through `valid_step`. -/
def step (hooks : Hooks) (dshape : Val) (s : GState) (row : Row) :
    Except PyErr GState :=
  match alook row "propertyID" with
  | Option.none => Except.error (PyErr.keyError "propertyID")
  | Option.some pv =>
    if pv.truthy = false then
      Except.ok { s with rowsOut := s.rowsOut ++ [row] }
    else
      Except.ok (valid_step hooks dshape s row)

/-- The `for row in rows` loop of `_get_tapshapes`, threading the loop state
row by row and propagating any raised exception. -/
def runRows (hooks : Hooks) (dshape : Val) : GState → List Row →
    Except PyErr GState
  | s, [] => Except.ok s
  | s, r :: rest =>
    match step hooks dshape s r with
    | Except.error e => Except.error e
    | Except.ok s' => runRows hooks dshape s' rest

/-- The configuration surface that `csvreader.py` reads: each field is
`Option.none` when the corresponding key is absent from `config_dict`.  The
two extra-element entries are looked up by direct indexing, so only their
presence matters; their bound values are never used. -/
structure Config where
  default_shape_name : Option Val
  element_aliases : Option (List (String × String))
  extra_shape_elements : Option Val
  extra_statement_constraint_elements : Option Val

/-- `_get_tapshapes` (lines 39-147).  Lines 45-48 read the default shape key
with `config_dict.get`, which never raises `KeyError`, so the `except`
branch assigning the literal `"default"` is dead code and an absent key
yields `None`.  Lines 50-53 index the two extra-element keys directly,
raising `KeyError` when absent, and bind values that are never used.  The
trailing `return` reads `tapshapes_dict` / `warnings_dict`, which are only
assigned inside the loop (lines 131-141), so a run with no valid row raises
`UnboundLocalError`.  The returned triple also exposes the processed rows,
making the in-place shapeID write-back explicit. -/
def get_tapshapes (hooks : Hooks) (rows : List Row) (config : Config) :
    Except PyErr ((PyObj × PyObj) × List Row) :=
  let dshape : Val := (config.default_shape_name).getD Val.null
  if config.extra_shape_elements.isNone then
    Except.error (PyErr.keyError "extra_shape_elements")
  else if config.extra_statement_constraint_elements.isNone then
    Except.error (PyErr.keyError "extra_statement_constraint_elements")
  else
    match runRows hooks dshape initState rows with
    | Except.error e => Except.error e
    | Except.ok sFinal =>
      match sFinal.ret with
      | Option.none => Except.error (PyErr.unboundLocalError "tapshapes_dict")
      | Option.some r => Except.ok (r, sFinal.rowsOut)

/-- Python `str.replace(old, "")` for a one-character `old`: delete every
occurrence of the character.  (Implemented over the character list so that
it evaluates inside the kernel.) -/
def delChar (c : Char) (s : String) : String :=
  String.mk (s.toList.filter (fun x => x != c))

/-- Python `str.lower()` over the character list. -/
def pyLower (s : String) : String :=
  String.mk (s.toList.map Char.toLower)

/-- Python `str.strip()`: drop leading and trailing whitespace. -/
def pyStrip (s : String) : String :=
  String.mk
    (((s.toList.dropWhile Char.isWhitespace).reverse.dropWhile
        Char.isWhitespace).reverse)

/-- Python `str.split(sep)` for a one-character separator, on character
lists: splitting the empty string gives one empty field. -/
def splitChar (sep : Char) : List Char → List (List Char)
  | [] => [[]]
  | c :: rest =>
    match splitChar sep rest with
    | [] => [[]]
    | g :: gs => if c = sep then [] :: g :: gs else (c :: g) :: gs

/-- Python `str.split(sep)` for a one-character separator. -/
def pySplit (s : String) (sep : Char) : List String :=
  (splitChar sep s.toList).map String.mk

/-- `_lowercase_despace_depunctuate` (lines 150-156): delete spaces,
underscores and dashes, then lowercase. -/
def lowercase_despace_depunctuate (s : String) : String :=
  pyLower (delChar '-' (delChar '_' (delChar ' ' s)))

/-- `_normalize_element_name` (lines 159-166): canonicalize, then walk the
alias table in order, substituting whenever a key equals the current string
(so a substituted value can itself be substituted by a later entry).  A
missing or empty alias table (both falsy) substitutes nothing. -/
def normalize_element_name (s : String)
    (aliases : Option (List (String × String))) : String :=
  (aliases.getD []).foldl (fun acc kv => if kv.1 = acc then kv.2 else acc)
    (lowercase_despace_depunctuate s)

/-- Python substring test `needle in hay` on strings. -/
def strContains (hay needle : String) : Bool :=
  (List.range (hay.length + 1)).any
    (fun i => needle.toList.isPrefixOf (hay.toList.drop i))

/-- One data row as built by `csv.DictReader`: zip the field names with the
cells, filling missing trailing cells with `None`; duplicate field names
keep the last cell (dict assignment).  Cells beyond the field names go under
the `restkey` (`None`) and are not modelled: no claim touches them and the
spec places CSV tokenizing out of scope. -/
def mkRow (fields : List String) (cells : List String) : Row :=
  (fields.zip
      (cells.map Val.str ++
        List.replicate (fields.length - cells.length) Val.null)).foldl
    (fun r kv => aset r kv.1 kv.2) []

/-- `_get_rows` (lines 20-36), with the open file modelled as its list of
raw lines.  Every line is stripped; line `[0]` of an empty input raises
`IndexError`; the headers of the first line are normalized and re-joined;
the fatal check tests whether `"propertyID"` occurs as a substring of the
re-joined header line (`"propertyID" not in csvlines_stripped[0]` is a
string containment test, not a membership test on the header list); the
remaining lines are parsed by `DictReader` against the re-split header line,
skipping blank lines.  Cell splitting is plain comma splitting: CSV quoting
is an out-of-scope collaborator per the spec. -/
def get_rows (rawLines : List String) (config : Config) :
    Except PyErr (List Row) :=
  let stripped := rawLines.map pyStrip
  match stripped with
  | [] => Except.error PyErr.indexError
  | headerLine :: rest =>
    let headers :=
      (pySplit headerLine ',').map
        (fun h => normalize_element_name h config.element_aliases)
    let newHeaderLine := String.intercalate "," headers
    if strContains newHeaderLine "propertyID" = false then
      Except.error
        (PyErr.dctapError "Valid DCTAP CSV must have a propertyID column.")
    else
      let fieldnames := pySplit newHeaderLine ','
      Except.ok
        ((rest.filter (fun l => l != "")).map
          (fun line => mkRow fieldnames (pySplit line ',')))

/-- `csvreader` (lines 12-17): load the rows, then call `_get_tapshapes`
twice on the same (mutated) row list, returning the shapes component of the
first call paired with the warnings component of the second. -/
def csvreader (hooks : Hooks) (rawLines : List String) (config : Config) :
    Except PyErr (PyObj × PyObj) :=
  match get_rows rawLines config with
  | Except.error e => Except.error e
  | Except.ok rows_list =>
    match get_tapshapes hooks rows_list config with
    | Except.error e => Except.error e
    | Except.ok r1 =>
      match get_tapshapes hooks r1.2 config with
      | Except.error e => Except.error e
      | Except.ok r2 => Except.ok (r1.1.1, r2.1.2)

/-! ### Helper definitions for concrete evaluations -/

/-- The final loop state of a run started from `initState` (meaningful when
the run succeeds, which every use below does). -/
def runOk (hooks : Hooks) (dshape : Val) (rows : List Row) : GState :=
  match runRows hooks dshape initState rows with
  | Except.ok s => s
  | Except.error _ => initState

/-- The state after one successful `step` (meaningful when the step
succeeds, which every use below does). -/
def stepOk (hooks : Hooks) (dshape : Val) (s : GState) (row : Row) : GState :=
  match step hooks dshape s row with
  | Except.ok s' => s'
  | Except.error _ => initState

/-- Whether a plain object is a Python list. -/
def isPyList : PyObj → Bool
  | PyObj.list _ => true
  | _ => false

/-- Shapes component of a `csvreader` result. -/
def fstOf : Except PyErr (PyObj × PyObj) → PyObj
  | Except.ok p => p.1
  | Except.error _ => PyObj.null

/-- Warnings component of a `_get_tapshapes` result. -/
def sndOfT : Except PyErr ((PyObj × PyObj) × List Row) → PyObj
  | Except.ok r => r.1.2
  | Except.error _ => PyObj.null

/-- A configuration with no `default_shape_name` key and no aliases, but with
the two extra-element keys present (their values are never used). -/
def cfgNoDefault : Config :=
  { default_shape_name := Option.none
    element_aliases := Option.none
    extra_shape_elements := Option.some (Val.str "")
    extra_statement_constraint_elements := Option.some (Val.str "") }

/-- A realistic configuration: configured default shape name and the header
aliases that restore the canonical camel-case element names which
`_lowercase_despace_depunctuate` destroys. -/
def cfgStd : Config :=
  { default_shape_name := Option.some (Val.str "default")
    element_aliases :=
      Option.some [("propertyid", "propertyID"), ("shapeid", "shapeID")]
    extra_shape_elements := Option.some (Val.str "")
    extra_statement_constraint_elements := Option.some (Val.str "") }

/-- Hooks whose shape-level normalization emits the warning `"W1"` and whose
statement-constraint-level normalization emits `"W2"`, both for the element
name `"shapeID"`. -/
def wHooks : Hooks :=
  { shapeNorm := fun s => s
    shapeWarn := fun _ => [("shapeID", "W1")]
    scNorm := fun c => c
    scWarn := fun _ => [("shapeID", "W2")] }

/-- The carry-forward fixture of the spec: R1 with key `"A"`, R2 with no
key, R3 with key `"B"`, R4 with no key. -/
def rowsCF : List Row :=
  [[("shapeID", Val.str "A"), ("propertyID", Val.str "p1")],
   [("propertyID", Val.str "p2")],
   [("shapeID", Val.str "B"), ("propertyID", Val.str "p3")],
   [("propertyID", Val.str "p4")]]

/-- The correspondence between the shapes dict and the instrumentation
trace: every shape's ordered statement-constraint list is exactly the
subsequence of appended constraints that resolved to its key, in source-row
order, and keys without a shape have contributed no constraints. -/
def shapesMatchTrace (shapes : List (Val × TAPShape))
    (tr : List (Val × TAPStatementConstraint)) : Prop :=
  (∀ k sh, alook shapes k = Option.some sh →
    sh.sc_list = (tr.filter (fun p => p.1 = k)).map Prod.snd) ∧
  (∀ k, alook shapes k = Option.none →
    tr.filter (fun p => p.1 = k) = [])

/-! ### Association-list lemmas -/

theorem alook_aset_self {K V : Type} [DecidableEq K] (m : List (K × V))
    (k : K) (v : V) : alook (aset m k v) k = Option.some v := by
  induction m with
  | nil => simp [aset, alook]
  | cons p rest ih =>
    obtain ⟨k', v'⟩ := p
    by_cases h : k' = k
    · simp [aset, alook, h]
    · simp [aset, alook, h, ih]

theorem alook_aset_ne {K V : Type} [DecidableEq K] (m : List (K × V))
    {k k' : K} (v : V) (h : k' ≠ k) : alook (aset m k v) k' = alook m k' := by
  induction m with
  | nil => simp [aset, alook, Ne.symm h]
  | cons p rest ih =>
    obtain ⟨k0, v0⟩ := p
    by_cases h0 : k0 = k
    · subst h0
      simp [aset, alook, Ne.symm h]
    · simp [aset, alook, h0, ih]

theorem alook_aupd_self {K V : Type} [DecidableEq K] (m : List (K × V))
    (k : K) (f : V → V) : alook (aupd m k f) k = (alook m k).map f := by
  cases h : alook m k with
  | none => simp [aupd, h]
  | some v => simp [aupd, h, alook_aset_self]

theorem alook_aupd_ne {K V : Type} [DecidableEq K] (m : List (K × V))
    {k k' : K} (f : V → V) (hne : k' ≠ k) :
    alook (aupd m k f) k' = alook m k' := by
  cases h : alook m k with
  | none => simp [aupd, h]
  | some v => simp [aupd, h, alook_aset_ne _ _ hne]

/-! ### Lemmas about single loop iterations -/

/-- On every row after the first valid one, the first-row block does
nothing. -/
theorem first_block_not_first (dshape : Val) (s : GState) (row : Row)
    (hfirst : s.first = false) :
    first_block dshape s row = (row, s.shapes, s.lastCreated, s.first) := by
  simp [first_block, hfirst]

/-- The statement-constraint trace of a valid iteration: exactly one entry
is appended, keyed by the resolved shape key. -/
theorem valid_step_scTrace (hooks : Hooks) (dshape : Val) (s : GState)
    (row : Row) :
    (valid_step hooks dshape s row).scTrace =
      s.scTrace ++
        [(resolve_next (first_block dshape s row).2.1
            (first_block dshape s row).1,
          hooks.scNorm (populate_sc {} (first_block dshape s row).1))] := rfl

/-- Lines 72-74: a row whose propertyID value is falsy leaves the whole loop
state unchanged and is recorded unmutated. -/
theorem step_skip (hooks : Hooks) (dshape : Val) (s : GState) (row : Row)
    (v : Val) (h : alook row "propertyID" = Option.some v)
    (hv : v.truthy = false) :
    step hooks dshape s row =
      Except.ok { s with rowsOut := s.rowsOut ++ [row] } := by
  simp [step, h, hv]

/-- A run consisting solely of skipped rows changes nothing but the
processed-row log. -/
theorem runRows_skip (hooks : Hooks) (dshape : Val) (rows : List Row)
    (h : ∀ r ∈ rows, ∃ v, alook r "propertyID" = Option.some v ∧
      v.truthy = false) :
    ∀ s, runRows hooks dshape s rows =
      Except.ok { s with rowsOut := s.rowsOut ++ rows } := by
  induction rows with
  | nil => intro s; simp [runRows]
  | cons r rest ih =>
    intro s
    obtain ⟨v, hv, ht⟩ := h r (List.mem_cons_self r rest)
    rw [runRows, step_skip hooks dshape s r v hv ht]
    show runRows hooks dshape { s with rowsOut := s.rowsOut ++ [r] } rest = _
    rw [ih (fun r' hr' => h r' (List.mem_cons_of_mem r hr'))]
    simp

/-! ### Warning-merge lemmas -/

theorem warnsAt_mergeOne (w : WMap) (k : Val) (elem : String) (warn : String)
    (e : String) :
    warnsAt (mergeOne w k elem warn) k e =
      if elem = e then warnsAt w k e ++ [warn] else warnsAt w k e := by
  by_cases h : elem = e
  · subst h
    simp [mergeOne, warnsAt, alook_aset_self]
  · simp [mergeOne, warnsAt, alook_aset_self, alook_aset_ne _ _ (Ne.symm h), h]

theorem warnsAt_mergeMany (items : List (String × String)) (w : WMap)
    (k : Val) (e : String) :
    warnsAt (mergeMany w k items) k e =
      warnsAt w k e ++ (items.filter (fun p => p.1 = e)).map Prod.snd := by
  induction items generalizing w with
  | nil => simp [mergeMany]
  | cons a rest ih =>
    show warnsAt (mergeMany (mergeOne w k a.1 a.2) k rest) k e = _
    rw [ih, warnsAt_mergeOne]
    by_cases h : a.1 = e
    · simp [h]
    · simp [h]

/-! ### Claims -/

/-- C1: for a valid record on the not-first path that carries no truthy
grouping key, the resolved shape key is the most recently created one, i.e.
the last key of the insertion-ordered shape dict (not necessarily the key of
the immediately preceding valid record); on the spec fixture
R1(key "A"), R2(no key), R3(key "B"), R4(no key), the per-row resolved keys
are A, A, B, B, so R2 resolves to "A" and R4 to "B". -/
theorem claim_C1 :
    (∀ (hooks : Hooks) (dshape : Val) (s : GState) (row : Row) (pv : Val)
        (s' : GState),
      s.first = false →
      alook row "propertyID" = Option.some pv →
      pv.truthy = true →
      truthyO (alook row "shapeID") = false →
      step hooks dshape s row = Except.ok s' →
      s'.scTrace.map Prod.fst =
        s.scTrace.map Prod.fst ++
          [(s.shapes.map Prod.fst).getLastD Val.null]) ∧
    (runOk idHooks (Val.str "default") rowsCF).scTrace.map Prod.fst =
      [Val.str "A", Val.str "A", Val.str "B", Val.str "B"] := by
  constructor
  · intro hooks dshape s row pv s' hfirst hpid htr hsid hstep
    simp only [step, hpid, htr, Bool.true_eq_false, if_false, ite_false,
      reduceIte] at hstep
    injection hstep with h
    subst h
    rw [valid_step_scTrace, first_block_not_first dshape s row hfirst]
    simp [resolve_next, hsid]
  · rfl

/-- Witness for C1: the fourth fixture row, processed from the state reached
after the first three, is assigned the most recently created key. -/
theorem claim_C1_witness :
    (stepOk idHooks (Val.str "default")
        (runOk idHooks (Val.str "default") (rowsCF.take 3))
        [("propertyID", Val.str "p4")]).scTrace.map Prod.fst =
      (runOk idHooks (Val.str "default")
          (rowsCF.take 3)).scTrace.map Prod.fst ++
        [((runOk idHooks (Val.str "default")
              (rowsCF.take 3)).shapes.map Prod.fst).getLastD Val.null] :=
  claim_C1.1 idHooks (Val.str "default")
    (runOk idHooks (Val.str "default") (rowsCF.take 3))
    [("propertyID", Val.str "p4")] (Val.str "p4")
    (stepOk idHooks (Val.str "default")
      (runOk idHooks (Val.str "default") (rowsCF.take 3))
      [("propertyID", Val.str "p4")])
    rfl rfl rfl rfl rfl

/-- C4: a record whose propertyID value is empty (or `None`) is skipped
entirely: the shapes dict, the carry-forward state (`first` flag and
last-created key), the warnings accumulator, the pending return value and
the statement-constraint trace are all unchanged, and the record itself is
logged unmutated. -/
theorem claim_C4 (hooks : Hooks) (dshape : Val) (s : GState) (row : Row)
    (v : Val) (h : alook row "propertyID" = Option.some v)
    (hv : v.truthy = false) :
    step hooks dshape s row =
      Except.ok { s with rowsOut := s.rowsOut ++ [row] } :=
  step_skip hooks dshape s row v h hv

/-- Witness for C4 at a concrete empty-propertyID row. -/
theorem claim_C4_witness :
    step idHooks Val.null initState [("propertyID", Val.str "")] =
      Except.ok { initState with
        rowsOut := initState.rowsOut ++ [[("propertyID", Val.str "")]] } :=
  claim_C4 idHooks Val.null initState [("propertyID", Val.str "")]
    (Val.str "") rfl rfl

/-- C7 (general part, plus concrete instance): merging the shape-level
warning items and then the statement-constraint-level warning items of one
record appends, at every element name, first the shape-level messages and
then the statement-level messages after whatever was already accumulated
(hence across records the order is source-row order); concretely, a
shape-level `"W1"` followed by a statement-level `"W2"` on the same element
yields the list [`"W1"`, `"W2"`] in the returned warnings mapping. -/
theorem claim_C7 :
    (∀ (w : WMap) (k : Val) (e : String)
        (sp sc : List (String × String)),
      warnsAt (mergeMany (mergeMany w k sp) k sc) k e =
        warnsAt w k e ++ (sp.filter (fun p => p.1 = e)).map Prod.snd ++
          (sc.filter (fun p => p.1 = e)).map Prod.snd) ∧
    sndOfT (get_tapshapes wHooks
        [[("shapeID", Val.str "A"), ("propertyID", Val.str "p")]]
        cfgNoDefault) =
      PyObj.dict
        [(Val.str "A",
          PyObj.dict
            [(Val.str "shapeID",
              PyObj.list [PyObj.str "W1", PyObj.str "W2"])])] := by
  constructor
  · intro w k e sp sc
    rw [warnsAt_mergeMany, warnsAt_mergeMany, List.append_assoc]
  · rfl

/-- C9 (amended): the two extra-element configuration entries must be
present (an absent one raises `KeyError` before any row is processed), but
their values never influence the result. -/
theorem claim_C9 (hooks : Hooks) (rows : List Row) (d : Option Val)
    (al : Option (List (String × String))) (a b a' b' : Val) :
    get_tapshapes hooks rows
        { default_shape_name := d, element_aliases := al,
          extra_shape_elements := Option.some a,
          extra_statement_constraint_elements := Option.some b } =
      get_tapshapes hooks rows
        { default_shape_name := d, element_aliases := al,
          extra_shape_elements := Option.some a',
          extra_statement_constraint_elements := Option.some b' } ∧
    get_tapshapes hooks rows
        { default_shape_name := d, element_aliases := al,
          extra_shape_elements := Option.none,
          extra_statement_constraint_elements := Option.some b } =
      Except.error (PyErr.keyError "extra_shape_elements") ∧
    get_tapshapes hooks rows
        { default_shape_name := d, element_aliases := al,
          extra_shape_elements := Option.some a,
          extra_statement_constraint_elements := Option.none } =
      Except.error (PyErr.keyError "extra_statement_constraint_elements") :=
  ⟨rfl, rfl, rfl⟩

/-- Counterexample for C9 as stated: with the extra-shape-elements entry
absent from the configuration, processing does not succeed; it raises
`KeyError` even on empty input. -/
theorem claim_C9_cex :
    get_tapshapes idHooks []
        { default_shape_name := Option.some (Val.str "default"),
          element_aliases := Option.none,
          extra_shape_elements := Option.none,
          extra_statement_constraint_elements :=
            Option.some (Val.str "") } =
      Except.error (PyErr.keyError "extra_shape_elements") := rfl

/-- C10: when every row's propertyID value is falsy (including the zero-row
case), the loop body never assigns `tapshapes_dict` / `warnings_dict`, and
`_get_tapshapes` raises `UnboundLocalError` instead of returning an empty
result (provided the two extra-element keys are present, without which the
earlier `KeyError` fires). -/
theorem claim_C10 (hooks : Hooks) (rows : List Row) (config : Config)
    (a b : Val) (ha : config.extra_shape_elements = Option.some a)
    (hb : config.extra_statement_constraint_elements = Option.some b)
    (hrows : ∀ r ∈ rows, ∃ v, alook r "propertyID" = Option.some v ∧
      v.truthy = false) :
    get_tapshapes hooks rows config =
      Except.error (PyErr.unboundLocalError "tapshapes_dict") := by
  have hrun := runRows_skip hooks ((config.default_shape_name).getD Val.null)
    rows hrows initState
  simp only [initState] at hrun
  simp [get_tapshapes, ha, hb, initState, hrun]

/-- Witness for C10 at one concrete empty-propertyID row. -/
theorem claim_C10_witness :
    get_tapshapes idHooks [[("propertyID", Val.str "")]] cfgStd =
      Except.error (PyErr.unboundLocalError "tapshapes_dict") :=
  claim_C10 idHooks [[("propertyID", Val.str "")]] cfgStd (Val.str "")
    (Val.str "") rfl rfl
    (by
      intro r hr
      simp only [List.mem_singleton] at hr
      subst hr
      exact ⟨Val.str "", rfl, rfl⟩)

/-- C2 (failing-input evaluation): with no `default_shape_name` key in the
configuration, the first valid record with no grouping key is keyed by
Python `None` — not by a fixed literal default — because `dict.get` never
raises the `KeyError` that the dead fallback branch catches; the `None` key
is also written back into the record (visible in the returned row list), and
the output contains exactly one shape, under the `None` key. -/
theorem claim_C2 :
    get_tapshapes idHooks [[("propertyID", Val.str "x")]] cfgNoDefault =
      Except.ok
        ((PyObj.dict
            [(Val.str "shapes",
              PyObj.list
                [PyObj.dict
                   [(Val.str "shapeID", PyObj.null),
                    (Val.str "shapeLabel", PyObj.str ""),
                    (Val.str "sh_warnings", PyObj.dict []),
                    (Val.str "statement_constraints",
                     PyObj.list
                       [PyObj.dict
                          [(Val.str "propertyID", PyObj.str "x"),
                           (Val.str "propertyLabel", PyObj.str ""),
                           (Val.str "mandatory", PyObj.str ""),
                           (Val.str "repeatable", PyObj.str ""),
                           (Val.str "valueNodeType", PyObj.str ""),
                           (Val.str "valueDataType", PyObj.str ""),
                           (Val.str "valueConstraint", PyObj.str ""),
                           (Val.str "valueConstraintType", PyObj.str ""),
                           (Val.str "valueShape", PyObj.str ""),
                           (Val.str "note", PyObj.str ""),
                           (Val.str "sc_warnings", PyObj.dict [])]])]])],
          PyObj.dict []),
         [[("propertyID", Val.str "x"), ("shapeID", Val.null)]]) := rfl

/-- C3 (failing-input evaluation): the fatal check tests `"propertyID"` as a
substring of the comma-joined normalized header line, so a lone column whose
alias-resolved name `"xpropertyIDx"` merely contains `"propertyID"` loads
without error although `"propertyID"` is not among the normalized header
names; conversely a column that does normalize to a line without the
substring raises the `DctapError`. -/
theorem claim_C3 :
    get_rows ["id", "v1"]
        { default_shape_name := Option.none,
          element_aliases := Option.some [("id", "xpropertyIDx")],
          extra_shape_elements := Option.none,
          extra_statement_constraint_elements := Option.none } =
      Except.ok [[("xpropertyIDx", Val.str "v1")]] ∧
    "propertyID" ∉
      (pySplit "id" ',').map
        (fun h => normalize_element_name h
          (Option.some [("id", "xpropertyIDx")])) ∧
    get_rows ["propertyID", "v1"]
        { default_shape_name := Option.none,
          element_aliases := Option.none,
          extra_shape_elements := Option.none,
          extra_statement_constraint_elements := Option.none } =
      Except.error
        (PyErr.dctapError
          "Valid DCTAP CSV must have a propertyID column.") :=
  ⟨rfl, by decide, rfl⟩

/-- C8 (amended): the pipeline result is a pair whose first component is a
dict holding, under the single key `"shapes"`, the ordered list of plain
shape dicts in creation order with the internal `sc_list` attribute renamed
to `statement_constraints`, and whose second component is the plain mapping
from shape key to element name to the ordered warning list. -/
theorem claim_C8 :
    csvreader wHooks ["shapeID,propertyID", ":a,p1", ":b,p2"] cfgStd =
      Except.ok
        (PyObj.dict
           [(Val.str "shapes",
             PyObj.list
               [PyObj.dict
                  [(Val.str "shapeID", PyObj.str ":a"),
                   (Val.str "shapeLabel", PyObj.str ""),
                   (Val.str "sh_warnings", PyObj.dict []),
                   (Val.str "statement_constraints",
                    PyObj.list
                      [PyObj.dict
                         [(Val.str "propertyID", PyObj.str "p1"),
                          (Val.str "propertyLabel", PyObj.str ""),
                          (Val.str "mandatory", PyObj.str ""),
                          (Val.str "repeatable", PyObj.str ""),
                          (Val.str "valueNodeType", PyObj.str ""),
                          (Val.str "valueDataType", PyObj.str ""),
                          (Val.str "valueConstraint", PyObj.str ""),
                          (Val.str "valueConstraintType", PyObj.str ""),
                          (Val.str "valueShape", PyObj.str ""),
                          (Val.str "note", PyObj.str ""),
                          (Val.str "sc_warnings", PyObj.dict [])]])],
                PyObj.dict
                  [(Val.str "shapeID", PyObj.str ":b"),
                   (Val.str "shapeLabel", PyObj.str ""),
                   (Val.str "sh_warnings", PyObj.dict []),
                   (Val.str "statement_constraints",
                    PyObj.list
                      [PyObj.dict
                         [(Val.str "propertyID", PyObj.str "p2"),
                          (Val.str "propertyLabel", PyObj.str ""),
                          (Val.str "mandatory", PyObj.str ""),
                          (Val.str "repeatable", PyObj.str ""),
                          (Val.str "valueNodeType", PyObj.str ""),
                          (Val.str "valueDataType", PyObj.str ""),
                          (Val.str "valueConstraint", PyObj.str ""),
                          (Val.str "valueConstraintType", PyObj.str ""),
                          (Val.str "valueShape", PyObj.str ""),
                          (Val.str "note", PyObj.str ""),
                          (Val.str "sc_warnings", PyObj.dict [])]])]])],
         PyObj.dict
           [(Val.str ":a",
             PyObj.dict
               [(Val.str "shapeID",
                 PyObj.list [PyObj.str "W1", PyObj.str "W2"])]),
            (Val.str ":b",
             PyObj.dict
               [(Val.str "shapeID",
                 PyObj.list [PyObj.str "W1", PyObj.str "W2"])])]) := rfl

/-- Counterexample for C8 as stated: the first component of the pipeline
result is not an ordered list — it is a dict wrapping the list under the key
`"shapes"`. -/
theorem claim_C8_cex :
    isPyList (fstOf (csvreader wHooks
      ["shapeID,propertyID", ":a,p1", ":b,p2"] cfgStd)) = false := rfl

/-! ### Field-population lemmas (C5) -/

/-- Closed form of `set_shape_fields`: the two shape elements are copied
when present in the row, everything else — in particular the bookkeeping
fields `sc_list` and `sh_warnings` — is untouched. -/
theorem set_shape_fields_eq (shape : TAPShape) (row : Row) :
    set_shape_fields shape row =
      { shapeID := (alook row "shapeID").getD shape.shapeID,
        shapeLabel := (alook row "shapeLabel").getD shape.shapeLabel,
        sc_list := shape.sc_list,
        sh_warnings := shape.sh_warnings } := by
  rw [set_shape_fields,
    show (tapshape_keys.erase "sc_list").erase "sh_warnings" =
      ["shapeID", "shapeLabel"] from rfl]
  simp only [List.foldl_cons, List.foldl_nil]
  cases h1 : alook row "shapeID" <;> cases h2 : alook row "shapeLabel" <;>
    simp [h1, h2, TAPShape.setattr]

/-- `set_shape_fields` never modifies the statement-constraint list. -/
theorem set_shape_fields_sc_list (shape : TAPShape) (row : Row) :
    (set_shape_fields shape row).sc_list = shape.sc_list := by
  rw [set_shape_fields_eq]

/-- Projection of one field-loop iteration: the `propertyID` field changes only
when the iterated key is `"propertyID"` and that key is present in the row. -/
theorem sc_upd_propertyID (row : Row) (s : TAPStatementConstraint) (k : String) :
    (sc_upd row s k).propertyID =
      if k = "propertyID" then (alook row k).getD s.propertyID
      else s.propertyID := by
  by_cases hk : k = "propertyID"
  · subst hk
    cases h : alook row "propertyID" <;>
      simp [sc_upd, TAPStatementConstraint.setattr, h]
  · rw [if_neg hk]
    cases h : alook row k
    · simp [sc_upd, h]
    · simp only [sc_upd, h]
      unfold TAPStatementConstraint.setattr
      split <;> simp_all

/-- Projection of one field-loop iteration: the `propertyLabel` field changes only
when the iterated key is `"propertyLabel"` and that key is present in the row. -/
theorem sc_upd_propertyLabel (row : Row) (s : TAPStatementConstraint) (k : String) :
    (sc_upd row s k).propertyLabel =
      if k = "propertyLabel" then (alook row k).getD s.propertyLabel
      else s.propertyLabel := by
  by_cases hk : k = "propertyLabel"
  · subst hk
    cases h : alook row "propertyLabel" <;>
      simp [sc_upd, TAPStatementConstraint.setattr, h]
  · rw [if_neg hk]
    cases h : alook row k
    · simp [sc_upd, h]
    · simp only [sc_upd, h]
      unfold TAPStatementConstraint.setattr
      split <;> simp_all

/-- Projection of one field-loop iteration: the `mandatory` field changes only
when the iterated key is `"mandatory"` and that key is present in the row. -/
theorem sc_upd_mandatory (row : Row) (s : TAPStatementConstraint) (k : String) :
    (sc_upd row s k).mandatory =
      if k = "mandatory" then (alook row k).getD s.mandatory
      else s.mandatory := by
  by_cases hk : k = "mandatory"
  · subst hk
    cases h : alook row "mandatory" <;>
      simp [sc_upd, TAPStatementConstraint.setattr, h]
  · rw [if_neg hk]
    cases h : alook row k
    · simp [sc_upd, h]
    · simp only [sc_upd, h]
      unfold TAPStatementConstraint.setattr
      split <;> simp_all

/-- Projection of one field-loop iteration: the `repeatable` field changes only
when the iterated key is `"repeatable"` and that key is present in the row. -/
theorem sc_upd_repeatable (row : Row) (s : TAPStatementConstraint) (k : String) :
    (sc_upd row s k).repeatable =
      if k = "repeatable" then (alook row k).getD s.repeatable
      else s.repeatable := by
  by_cases hk : k = "repeatable"
  · subst hk
    cases h : alook row "repeatable" <;>
      simp [sc_upd, TAPStatementConstraint.setattr, h]
  · rw [if_neg hk]
    cases h : alook row k
    · simp [sc_upd, h]
    · simp only [sc_upd, h]
      unfold TAPStatementConstraint.setattr
      split <;> simp_all

/-- Projection of one field-loop iteration: the `valueNodeType` field changes only
when the iterated key is `"valueNodeType"` and that key is present in the row. -/
theorem sc_upd_valueNodeType (row : Row) (s : TAPStatementConstraint) (k : String) :
    (sc_upd row s k).valueNodeType =
      if k = "valueNodeType" then (alook row k).getD s.valueNodeType
      else s.valueNodeType := by
  by_cases hk : k = "valueNodeType"
  · subst hk
    cases h : alook row "valueNodeType" <;>
      simp [sc_upd, TAPStatementConstraint.setattr, h]
  · rw [if_neg hk]
    cases h : alook row k
    · simp [sc_upd, h]
    · simp only [sc_upd, h]
      unfold TAPStatementConstraint.setattr
      split <;> simp_all

/-- Projection of one field-loop iteration: the `valueDataType` field changes only
when the iterated key is `"valueDataType"` and that key is present in the row. -/
theorem sc_upd_valueDataType (row : Row) (s : TAPStatementConstraint) (k : String) :
    (sc_upd row s k).valueDataType =
      if k = "valueDataType" then (alook row k).getD s.valueDataType
      else s.valueDataType := by
  by_cases hk : k = "valueDataType"
  · subst hk
    cases h : alook row "valueDataType" <;>
      simp [sc_upd, TAPStatementConstraint.setattr, h]
  · rw [if_neg hk]
    cases h : alook row k
    · simp [sc_upd, h]
    · simp only [sc_upd, h]
      unfold TAPStatementConstraint.setattr
      split <;> simp_all

/-- Projection of one field-loop iteration: the `valueConstraint` field changes only
when the iterated key is `"valueConstraint"` and that key is present in the row. -/
theorem sc_upd_valueConstraint (row : Row) (s : TAPStatementConstraint) (k : String) :
    (sc_upd row s k).valueConstraint =
      if k = "valueConstraint" then (alook row k).getD s.valueConstraint
      else s.valueConstraint := by
  by_cases hk : k = "valueConstraint"
  · subst hk
    cases h : alook row "valueConstraint" <;>
      simp [sc_upd, TAPStatementConstraint.setattr, h]
  · rw [if_neg hk]
    cases h : alook row k
    · simp [sc_upd, h]
    · simp only [sc_upd, h]
      unfold TAPStatementConstraint.setattr
      split <;> simp_all

/-- Projection of one field-loop iteration: the `valueConstraintType` field changes only
when the iterated key is `"valueConstraintType"` and that key is present in the row. -/
theorem sc_upd_valueConstraintType (row : Row) (s : TAPStatementConstraint) (k : String) :
    (sc_upd row s k).valueConstraintType =
      if k = "valueConstraintType" then (alook row k).getD s.valueConstraintType
      else s.valueConstraintType := by
  by_cases hk : k = "valueConstraintType"
  · subst hk
    cases h : alook row "valueConstraintType" <;>
      simp [sc_upd, TAPStatementConstraint.setattr, h]
  · rw [if_neg hk]
    cases h : alook row k
    · simp [sc_upd, h]
    · simp only [sc_upd, h]
      unfold TAPStatementConstraint.setattr
      split <;> simp_all

/-- Projection of one field-loop iteration: the `valueShape` field changes only
when the iterated key is `"valueShape"` and that key is present in the row. -/
theorem sc_upd_valueShape (row : Row) (s : TAPStatementConstraint) (k : String) :
    (sc_upd row s k).valueShape =
      if k = "valueShape" then (alook row k).getD s.valueShape
      else s.valueShape := by
  by_cases hk : k = "valueShape"
  · subst hk
    cases h : alook row "valueShape" <;>
      simp [sc_upd, TAPStatementConstraint.setattr, h]
  · rw [if_neg hk]
    cases h : alook row k
    · simp [sc_upd, h]
    · simp only [sc_upd, h]
      unfold TAPStatementConstraint.setattr
      split <;> simp_all

/-- Projection of one field-loop iteration: the `note` field changes only
when the iterated key is `"note"` and that key is present in the row. -/
theorem sc_upd_note (row : Row) (s : TAPStatementConstraint) (k : String) :
    (sc_upd row s k).note =
      if k = "note" then (alook row k).getD s.note
      else s.note := by
  by_cases hk : k = "note"
  · subst hk
    cases h : alook row "note" <;>
      simp [sc_upd, TAPStatementConstraint.setattr, h]
  · rw [if_neg hk]
    cases h : alook row k
    · simp [sc_upd, h]
    · simp only [sc_upd, h]
      unfold TAPStatementConstraint.setattr
      split <;> simp_all

/-- Projection of one field-loop iteration for the bookkeeping field: it too
is overwritten when the iterated key is `"sc_warnings"` and present. -/
theorem sc_upd_sc_warnings (row : Row) (s : TAPStatementConstraint)
    (k : String) :
    (sc_upd row s k).sc_warnings =
      if k = "sc_warnings" then
        ((alook row k).map Option.some).getD s.sc_warnings
      else s.sc_warnings := by
  by_cases hk : k = "sc_warnings"
  · subst hk
    cases h : alook row "sc_warnings" <;>
      simp [sc_upd, TAPStatementConstraint.setattr, h]
  · rw [if_neg hk]
    cases h : alook row k
    · simp [sc_upd, h]
    · simp only [sc_upd, h]
      unfold TAPStatementConstraint.setattr
      split <;> simp_all

/-- Closed form of `populate_sc`: each of the eleven declared fields —
including the bookkeeping `sc_warnings` — is copied when present in the
row and retained otherwise. -/
theorem populate_sc_eq (sc : TAPStatementConstraint) (row : Row) :
    populate_sc sc row =
      { propertyID := (alook row "propertyID").getD sc.propertyID,
        propertyLabel := (alook row "propertyLabel").getD sc.propertyLabel,
        mandatory := (alook row "mandatory").getD sc.mandatory,
        repeatable := (alook row "repeatable").getD sc.repeatable,
        valueNodeType := (alook row "valueNodeType").getD sc.valueNodeType,
        valueDataType := (alook row "valueDataType").getD sc.valueDataType,
        valueConstraint :=
          (alook row "valueConstraint").getD sc.valueConstraint,
        valueConstraintType :=
          (alook row "valueConstraintType").getD sc.valueConstraintType,
        valueShape := (alook row "valueShape").getD sc.valueShape,
        note := (alook row "note").getD sc.note,
        sc_warnings :=
          ((alook row "sc_warnings").map Option.some).getD sc.sc_warnings } := by
  have hk : populate_sc sc row =
      sc_upd row (sc_upd row (sc_upd row (sc_upd row (sc_upd row (sc_upd row
        (sc_upd row (sc_upd row (sc_upd row (sc_upd row (sc_upd row sc
          "propertyID") "propertyLabel") "mandatory") "repeatable")
          "valueNodeType") "valueDataType") "valueConstraint")
          "valueConstraintType") "valueShape") "note") "sc_warnings" := rfl
  rw [hk]
  ext1 <;>
    simp [sc_upd_propertyID, sc_upd_propertyLabel, sc_upd_mandatory, sc_upd_repeatable, sc_upd_valueNodeType, sc_upd_valueDataType, sc_upd_valueConstraint, sc_upd_valueConstraintType, sc_upd_valueShape, sc_upd_note, sc_upd_sc_warnings]

/-- C5 (amended): field population is total (no error on any overlap) and
copy-if-present per declared field: the Shape populator copies `shapeID` /
`shapeLabel` when present, retains them otherwise, and never touches the
bookkeeping fields `sc_list` / `sh_warnings` (they are removed from the
iterated key list); the StatementConstraint populator copies every one of
its eleven declared fields when present — including the bookkeeping
`sc_warnings`, which is not excluded — and retains absent ones; a record
containing only unrecognized columns leaves the entity entirely at its
defaults. -/
theorem claim_C5 :
    (∀ (shape : TAPShape) (row : Row),
      set_shape_fields shape row =
        { shapeID := (alook row "shapeID").getD shape.shapeID,
          shapeLabel := (alook row "shapeLabel").getD shape.shapeLabel,
          sc_list := shape.sc_list,
          sh_warnings := shape.sh_warnings }) ∧
    (∀ (sc : TAPStatementConstraint) (row : Row),
      populate_sc sc row =
        { propertyID := (alook row "propertyID").getD sc.propertyID,
          propertyLabel := (alook row "propertyLabel").getD sc.propertyLabel,
          mandatory := (alook row "mandatory").getD sc.mandatory,
          repeatable := (alook row "repeatable").getD sc.repeatable,
          valueNodeType := (alook row "valueNodeType").getD sc.valueNodeType,
          valueDataType := (alook row "valueDataType").getD sc.valueDataType,
          valueConstraint :=
            (alook row "valueConstraint").getD sc.valueConstraint,
          valueConstraintType :=
            (alook row "valueConstraintType").getD sc.valueConstraintType,
          valueShape := (alook row "valueShape").getD sc.valueShape,
          note := (alook row "note").getD sc.note,
          sc_warnings :=
            ((alook row "sc_warnings").map Option.some).getD
              sc.sc_warnings }) ∧
    (∀ (sc : TAPStatementConstraint) (row : Row),
      (∀ k ∈ sc_keys, alook row k = Option.none) →
      populate_sc sc row = sc) := by
  refine ⟨set_shape_fields_eq, populate_sc_eq, ?_⟩
  intro sc row h
  rw [populate_sc_eq,
    h "propertyID" (by decide), h "propertyLabel" (by decide),
    h "mandatory" (by decide), h "repeatable" (by decide),
    h "valueNodeType" (by decide), h "valueDataType" (by decide),
    h "valueConstraint" (by decide), h "valueConstraintType" (by decide),
    h "valueShape" (by decide), h "note" (by decide),
    h "sc_warnings" (by decide)]
  rfl

/-- Witness for C5: a record holding only the unrecognized column `"foo"`
leaves a pristine statement constraint entirely at its defaults. -/
theorem claim_C5_witness :
    populate_sc {} [("foo", Val.str "bar")] = ({} : TAPStatementConstraint) :=
  claim_C5.2.2 {} [("foo", Val.str "bar")] (by decide)

/-- Counterexample for C5 as stated: the statement-constraint populator does
not exclude the internal bookkeeping field — a record carrying the column
name `"sc_warnings"` overwrites it instead of leaving it at its default. -/
theorem claim_C5_cex :
    ¬ (populate_sc {} [("sc_warnings", Val.str "x")]).sc_warnings =
        ({} : TAPStatementConstraint).sc_warnings := by
  decide

/-! ### Trace-correspondence lemmas (C6) -/

theorem isSome_aset_self {K V : Type} [DecidableEq K] (m : List (K × V))
    (k : K) (v : V) : (alook (aset m k v) k).isSome = true := by
  rw [alook_aset_self]; rfl

theorem isSome_aset {K V : Type} [DecidableEq K] (m : List (K × V))
    {k k' : K} (v : V) (h : (alook m k').isSome = true) :
    (alook (aset m k v) k').isSome = true := by
  by_cases hk : k' = k
  · subst hk; rw [alook_aset_self]; rfl
  · rw [alook_aset_ne m v hk]; exact h

theorem isSome_aupd {K V : Type} [DecidableEq K] (m : List (K × V))
    {k k' : K} (f : V → V) (h : (alook m k').isSome = true) :
    (alook (aupd m k f) k').isSome = true := by
  by_cases hk : k' = k
  · subst hk
    rw [alook_aupd_self]
    cases hm : alook m k'
    · simp [hm] at h
    · simp [hm]
  · rw [alook_aupd_ne m f hk]; exact h

/-- The empty dict matches the empty trace. -/
theorem smt_nil : shapesMatchTrace [] [] := by
  constructor
  · intro k sh hk
    cases hk
  · intro k hk
    rfl

/-- A dict holding one freshly populated shape matches the empty trace. -/
theorem smt_single (a : Val) (row1 : Row) :
    shapesMatchTrace [(a, set_shape_fields {} row1)] [] := by
  constructor
  · intro k sh hk
    simp only [alook] at hk
    split at hk
    · injection hk with h
      subst h
      simp [set_shape_fields_sc_list]
    · cases hk
  · intro k hk
    simp

/-- Creating a shape at a fresh key preserves the correspondence: the new
shape starts with an empty constraint list, and a fresh key has contributed
nothing to the trace. -/
theorem smt_create (shapes : List (Val × TAPShape))
    (tr : List (Val × TAPStatementConstraint)) (sh_id : Val) (row1 : Row)
    (hnone : alook shapes sh_id = Option.none)
    (hsmt : shapesMatchTrace shapes tr) :
    shapesMatchTrace (aset shapes sh_id (set_shape_fields {} row1)) tr := by
  constructor
  · intro k sh hk
    by_cases hks : k = sh_id
    · subst hks
      rw [alook_aset_self] at hk
      injection hk with h
      subst h
      rw [set_shape_fields_sc_list, hsmt.2 k hnone]
      rfl
    · rw [alook_aset_ne shapes _ hks] at hk
      exact hsmt.1 k sh hk
  · intro k hk
    by_cases hks : k = sh_id
    · subst hks
      rw [alook_aset_self] at hk
      cases hk
    · rw [alook_aset_ne shapes _ hks] at hk
      exact hsmt.2 k hk

/-- Re-assigning any key to a shape-list-preserving normalization of its
current shape (or, for an absent key, of a pristine shape) preserves the
correspondence. -/
theorem smt_aset_norm (shapes : List (Val × TAPShape))
    (tr : List (Val × TAPStatementConstraint)) (last2 : Val)
    (f : TAPShape → TAPShape) (hf : ∀ sh, (f sh).sc_list = sh.sc_list)
    (hsmt : shapesMatchTrace shapes tr) :
    shapesMatchTrace (aset shapes last2 (f ((alook shapes last2).getD {})))
      tr := by
  constructor
  · intro k sh hk
    by_cases hkl : k = last2
    · subst hkl
      rw [alook_aset_self] at hk
      injection hk with h
      subst h
      rw [hf]
      cases hm : alook shapes k
      · simp only [hm, Option.getD_none]
        rw [hsmt.2 k hm]
        rfl
      · simp only [hm, Option.getD_some]
        exact hsmt.1 k _ hm
    · rw [alook_aset_ne shapes _ hkl] at hk
      exact hsmt.1 k sh hk
  · intro k hk
    by_cases hkl : k = last2
    · subst hkl
      rw [alook_aset_self] at hk
      cases hk
    · rw [alook_aset_ne shapes _ hkl] at hk
      exact hsmt.2 k hk

/-- Appending one statement constraint to the shape at a present key, while
appending the matching entry to the trace, preserves the correspondence. -/
theorem smt_append (shapes : List (Val × TAPShape))
    (tr : List (Val × TAPStatementConstraint)) (sh_id : Val)
    (sc1 : TAPStatementConstraint)
    (hpresent : (alook shapes sh_id).isSome = true)
    (hsmt : shapesMatchTrace shapes tr) :
    shapesMatchTrace
      (aupd shapes sh_id (fun sh => { sh with sc_list := sh.sc_list ++ [sc1] }))
      (tr ++ [(sh_id, sc1)]) := by
  constructor
  · intro k sh hk
    by_cases hks : k = sh_id
    · subst hks
      rw [alook_aupd_self] at hk
      cases hm : alook shapes k with
      | none => rw [hm] at hk; cases hk
      | some w =>
        rw [hm] at hk
        injection hk with h
        subst h
        have hw := hsmt.1 k w hm
        simp [List.filter_append, hw]
    · rw [alook_aupd_ne shapes _ hks] at hk
      have hw := hsmt.1 k sh hk
      simp [List.filter_append, hw, Ne.symm hks]
  · intro k hk
    by_cases hks : k = sh_id
    · subst hks
      rw [alook_aupd_self] at hk
      cases hm : alook shapes k with
      | none => simp [hm] at hpresent
      | some w => rw [hm] at hk; cases hk
    · rw [alook_aupd_ne shapes _ hks] at hk
      simp [List.filter_append, hsmt.2 k hk, Ne.symm hks]

/-- The creation block, the shape-normalization re-assignment and the
constraint append of one valid iteration preserve the correspondence and
keep both the resolved key and the last-created key present. -/
theorem stages_inv (hooks : Hooks) (warns : WMap)
    (shapes1 : List (Val × TAPShape))
    (tr : List (Val × TAPStatementConstraint)) (last1 sh_id : Val)
    (row1 : Row) (sc1 : TAPStatementConstraint)
    (hpres : ∀ sh, (hooks.shapeNorm sh).sc_list = sh.sc_list)
    (hsmt1 : shapesMatchTrace shapes1 tr)
    (hlast1 : (alook shapes1 last1).isSome = true) :
    shapesMatchTrace
      (aupd
        (aset (create_block warns shapes1 last1 sh_id row1).1
          (create_block warns shapes1 last1 sh_id row1).2.2
          (hooks.shapeNorm
            ((alook (create_block warns shapes1 last1 sh_id row1).1
                (create_block warns shapes1 last1 sh_id row1).2.2).getD {})))
        sh_id (fun sh => { sh with sc_list := sh.sc_list ++ [sc1] }))
      (tr ++ [(sh_id, sc1)]) ∧
    (alook
      (aupd
        (aset (create_block warns shapes1 last1 sh_id row1).1
          (create_block warns shapes1 last1 sh_id row1).2.2
          (hooks.shapeNorm
            ((alook (create_block warns shapes1 last1 sh_id row1).1
                (create_block warns shapes1 last1 sh_id row1).2.2).getD {})))
        sh_id (fun sh => { sh with sc_list := sh.sc_list ++ [sc1] }))
      (create_block warns shapes1 last1 sh_id row1).2.2).isSome = true := by
  have hcb : shapesMatchTrace (create_block warns shapes1 last1 sh_id row1).1
        tr ∧
      (alook (create_block warns shapes1 last1 sh_id row1).1 sh_id).isSome =
        true ∧
      (alook (create_block warns shapes1 last1 sh_id row1).1
        (create_block warns shapes1 last1 sh_id row1).2.2).isSome = true := by
    cases hc : (alook shapes1 sh_id).isNone
    · have hsome : (alook shapes1 sh_id).isSome = true := by
        cases ho : alook shapes1 sh_id
        · rw [ho] at hc; cases hc
        · rfl
      simp only [create_block, hc, Bool.false_eq_true, if_false, ite_false]
      exact ⟨hsmt1, hsome, hlast1⟩
    · have hnone : alook shapes1 sh_id = Option.none :=
        Option.isNone_iff_eq_none.mp hc
      simp only [create_block, hc, if_true, ite_true]
      exact ⟨smt_create shapes1 tr sh_id row1 hnone hsmt1,
        isSome_aset_self shapes1 sh_id _, isSome_aset_self shapes1 sh_id _⟩
  obtain ⟨hcb1, hcb2, hcb3⟩ := hcb
  have hs3smt := smt_aset_norm (create_block warns shapes1 last1 sh_id row1).1
    tr (create_block warns shapes1 last1 sh_id row1).2.2 hooks.shapeNorm
    hpres hcb1
  have hs3sh : (alook
      (aset (create_block warns shapes1 last1 sh_id row1).1
        (create_block warns shapes1 last1 sh_id row1).2.2
        (hooks.shapeNorm
          ((alook (create_block warns shapes1 last1 sh_id row1).1
              (create_block warns shapes1 last1 sh_id row1).2.2).getD {})))
      sh_id).isSome = true :=
    isSome_aset (create_block warns shapes1 last1 sh_id row1).1 _ hcb2
  refine ⟨smt_append _ tr sh_id sc1 hs3sh hs3smt, ?_⟩
  exact isSome_aupd _ _ (isSome_aset_self _ _ _)

/-- One valid iteration lowers the first-row flag, keeps the shape bound to
the local variable `shape` present, and preserves the correspondence between
the shapes dict and the trace. -/
theorem valid_step_inv (hooks : Hooks) (dshape : Val) (s : GState) (row : Row)
    (hpres : ∀ sh, (hooks.shapeNorm sh).sc_list = sh.sc_list)
    (h1 : s.first = true → s.shapes = [] ∧ s.scTrace = [])
    (h2 : s.first = false → (alook s.shapes s.lastCreated).isSome = true)
    (hsmt : shapesMatchTrace s.shapes s.scTrace) :
    (valid_step hooks dshape s row).first = false ∧
    (alook (valid_step hooks dshape s row).shapes
      (valid_step hooks dshape s row).lastCreated).isSome = true ∧
    shapesMatchTrace (valid_step hooks dshape s row).shapes
      (valid_step hooks dshape s row).scTrace := by
  have hfb : shapesMatchTrace (first_block dshape s row).2.1 s.scTrace ∧
      (alook (first_block dshape s row).2.1
        (first_block dshape s row).2.2.1).isSome = true ∧
      (first_block dshape s row).2.2.2 = false := by
    cases hf : s.first
    · rw [first_block_not_first dshape s row hf]
      exact ⟨hsmt, h2 hf, hf⟩
    · obtain ⟨hsh, htr⟩ := h1 hf
      rw [htr]
      simp only [first_block, hf, if_true, ite_true, hsh, aset]
      refine ⟨smt_single _ _, ?_, by trivial⟩
      simp [alook]
  obtain ⟨hfb1, hfb2, hfb3⟩ := hfb
  have hmain := stages_inv hooks s.warns (first_block dshape s row).2.1
    s.scTrace (first_block dshape s row).2.2.1
    (resolve_next (first_block dshape s row).2.1 (first_block dshape s row).1)
    (first_block dshape s row).1
    (hooks.scNorm (populate_sc {} (first_block dshape s row).1))
    hpres hfb1 hfb2
  exact ⟨hfb3, hmain.2, hmain.1⟩

/-- One loop iteration preserves the loop invariant. -/
theorem step_inv (hooks : Hooks) (dshape : Val) (s : GState) (row : Row)
    (s' : GState)
    (hpres : ∀ sh, (hooks.shapeNorm sh).sc_list = sh.sc_list)
    (h1 : s.first = true → s.shapes = [] ∧ s.scTrace = [])
    (h2 : s.first = false → (alook s.shapes s.lastCreated).isSome = true)
    (hsmt : shapesMatchTrace s.shapes s.scTrace)
    (hstep : step hooks dshape s row = Except.ok s') :
    (s'.first = true → s'.shapes = [] ∧ s'.scTrace = []) ∧
    (s'.first = false → (alook s'.shapes s'.lastCreated).isSome = true) ∧
    shapesMatchTrace s'.shapes s'.scTrace := by
  cases hpid : alook row "propertyID" with
  | none => simp [step, hpid] at hstep
  | some pv =>
    simp only [step, hpid] at hstep
    cases hpv : pv.truthy
    · rw [hpv] at hstep
      simp only [reduceIte] at hstep
      injection hstep with h
      subst h
      exact ⟨h1, h2, hsmt⟩
    · rw [hpv] at hstep
      simp only [Bool.true_eq_false, if_false, ite_false, reduceIte] at hstep
      injection hstep with h
      subst h
      have hv := valid_step_inv hooks dshape s row hpres h1 h2 hsmt
      refine ⟨fun hc => ?_, fun _ => hv.2.1, hv.2.2⟩
      rw [hv.1] at hc
      cases hc

/-- The loop invariant holds at the end of any successful run. -/
theorem runRows_inv (hooks : Hooks) (dshape : Val)
    (hpres : ∀ sh, (hooks.shapeNorm sh).sc_list = sh.sc_list) :
    ∀ (rows : List Row) (s sF : GState),
      (s.first = true → s.shapes = [] ∧ s.scTrace = []) →
      (s.first = false → (alook s.shapes s.lastCreated).isSome = true) →
      shapesMatchTrace s.shapes s.scTrace →
      runRows hooks dshape s rows = Except.ok sF →
      (sF.first = true → sF.shapes = [] ∧ sF.scTrace = []) ∧
      (sF.first = false → (alook sF.shapes sF.lastCreated).isSome = true) ∧
      shapesMatchTrace sF.shapes sF.scTrace := by
  intro rows
  induction rows with
  | nil =>
    intro s sF hh1 hh2 hhs hrun
    simp only [runRows] at hrun
    injection hrun with h
    subst h
    exact ⟨hh1, hh2, hhs⟩
  | cons r rest ih =>
    intro s sF hh1 hh2 hhs hrun
    rw [runRows] at hrun
    cases hs : step hooks dshape s r with
    | error e =>
      rw [hs] at hrun
      have hrun' : (Except.error e : Except PyErr GState) = Except.ok sF :=
        hrun
      cases hrun'
    | ok s1 =>
      rw [hs] at hrun
      have hrun' : runRows hooks dshape s1 rest = Except.ok sF := hrun
      have hst := step_inv hooks dshape s r s1 hpres hh1 hh2 hhs hs
      exact ih s1 sF hst.1 hst.2.1 hst.2.2 hrun'

/-- One iteration appends exactly one trace entry for a valid row and none
for a skipped one. -/
theorem step_trace_len (hooks : Hooks) (dshape : Val) (s : GState)
    (row : Row) (s' : GState)
    (hstep : step hooks dshape s row = Except.ok s') :
    s'.scTrace.length =
      s.scTrace.length +
        (if truthyO (alook row "propertyID") then 1 else 0) := by
  cases hpid : alook row "propertyID" with
  | none => simp [step, hpid] at hstep
  | some pv =>
    simp only [step, hpid] at hstep
    cases hpv : pv.truthy
    · rw [hpv] at hstep
      simp only [reduceIte] at hstep
      injection hstep with h
      subst h
      simp [truthyO, hpv]
    · rw [hpv] at hstep
      simp only [Bool.true_eq_false, if_false, ite_false, reduceIte] at hstep
      injection hstep with h
      subst h
      rw [valid_step_scTrace]
      simp [truthyO, hpv]

/-- Over a whole run, the trace grows by exactly one entry per valid row. -/
theorem runRows_trace_len (hooks : Hooks) (dshape : Val) :
    ∀ (rows : List Row) (s sF : GState),
      runRows hooks dshape s rows = Except.ok sF →
      sF.scTrace.length =
        s.scTrace.length +
          (rows.filter (fun r => truthyO (alook r "propertyID"))).length := by
  intro rows
  induction rows with
  | nil =>
    intro s sF hrun
    simp only [runRows] at hrun
    injection hrun with h
    subst h
    simp
  | cons r rest ih =>
    intro s sF hrun
    rw [runRows] at hrun
    cases hs : step hooks dshape s r with
    | error e =>
      rw [hs] at hrun
      have hrun' : (Except.error e : Except PyErr GState) = Except.ok sF :=
        hrun
      cases hrun'
    | ok s1 =>
      rw [hs] at hrun
      have hrun' : runRows hooks dshape s1 rest = Except.ok sF := hrun
      have h1 := step_trace_len hooks dshape s r s1 hs
      have h2 := ih s1 sF hrun'
      rw [h2, h1, List.filter_cons]
      cases hv : truthyO (alook r "propertyID")
      all_goals simp
      all_goals omega

/-- C6: at the end of any successful run (under hooks whose shape-level
normalization does not touch the constraint list, as the spec's collaborator
contract implies), every shape's ordered statement-constraint list is
exactly the subsequence of the per-valid-row trace that resolved to its key
— one appended constraint per contributing record, in source-row order,
including across non-contiguous rows sharing a carried-forward key — and the
trace has exactly one entry per valid input row. -/
theorem claim_C6 (hooks : Hooks) (dshape : Val) (rows : List Row)
    (sF : GState)
    (hpres : ∀ sh, (hooks.shapeNorm sh).sc_list = sh.sc_list)
    (hrun : runRows hooks dshape initState rows = Except.ok sF) :
    (∀ k sh, alook sF.shapes k = Option.some sh →
      sh.sc_list = (sF.scTrace.filter (fun p => p.1 = k)).map Prod.snd) ∧
    sF.scTrace.length =
      (rows.filter (fun r => truthyO (alook r "propertyID"))).length := by
  constructor
  · have hinv := runRows_inv hooks dshape hpres rows initState sF
      (fun _ => ⟨rfl, rfl⟩) (fun h => by cases h) smt_nil hrun
    exact hinv.2.2.1
  · have hlen := runRows_trace_len hooks dshape rows initState sF hrun
    simpa [initState] using hlen

/-- Witness for C6 on the carry-forward fixture: the shape keyed `"A"` holds
exactly the constraints of the rows that resolved to `"A"`, in order, and
the trace length equals the number of valid rows. -/
theorem claim_C6_witness :
    ((alook (runOk idHooks (Val.str "default") rowsCF).shapes
        (Val.str "A")).getD {}).sc_list =
      ((runOk idHooks (Val.str "default") rowsCF).scTrace.filter
        (fun p => p.1 = Val.str "A")).map Prod.snd ∧
    (runOk idHooks (Val.str "default") rowsCF).scTrace.length =
      (rowsCF.filter (fun r => truthyO (alook r "propertyID"))).length :=
  ⟨(claim_C6 idHooks (Val.str "default") rowsCF
      (runOk idHooks (Val.str "default") rowsCF) (fun sh => rfl) rfl).1
      (Val.str "A")
      ((alook (runOk idHooks (Val.str "default") rowsCF).shapes
        (Val.str "A")).getD {}) rfl,
   (claim_C6 idHooks (Val.str "default") rowsCF
      (runOk idHooks (Val.str "default") rowsCF) (fun sh => rfl) rfl).2⟩
